import Mathlib

/-!
Verification development for the SniffBot code-review agent
(`sniffbot-a2a`: `agent.py`, `utils/diff.py`, `utils/code_extractor.py`).

The Python sources are shallowly embedded as executable Lean functions.
Python strings are modelled as Lean `String`/`List Char`; `None` as
`Option.none`; fallible Python expressions (dict lookups, attribute and
method access on arbitrary JSON values) return `Except PyErr`.
Unicode-dependent corners that no theorem depends on are approximated and
noted in the doc comment of the definition concerned (ASCII
case-mapping, the exotic Unicode whitespace and line-break characters).
-/

namespace Sniffbot

/-! ## Python string primitives -/

/-- Characters stripped by Python `str.strip()` with no argument.
Covers the ASCII whitespace set plus the common one-byte Unicode spaces;
rarer Unicode space characters (e.g. U+2000–U+200A) are not modelled and
no theorem below depends on them. -/
def pyIsSpaceChar (c : Char) : Bool :=
  [' ', '\t', '\n', '\r', '\x0b', '\x0c', '\x1c', '\x1d', '\x1e', '\x1f',
   '\x85', '\xa0', Char.ofNat 0x2028, Char.ofNat 0x2029].contains c

/-- Does `s` start with `p`? -/
def listStartsWith : List Char → List Char → Bool
  | [], _ => true
  | _ :: _, [] => false
  | p :: ps, c :: cs => p = c && listStartsWith ps cs

/-- Python's substring test `sub in s` on character lists.
The empty string is a substring of everything, as in Python. -/
def listIn (sub : List Char) : List Char → Bool
  | [] => listStartsWith sub []
  | l@(_ :: t) => listStartsWith sub l || listIn sub t

/-- Python `sub in s` on strings. -/
def pyInB (sub s : String) : Bool := listIn sub.data s.data

/-- Python `str.lower()`.  ASCII case mapping only (`Char.toLower`);
non-ASCII case folding is not modelled and no theorem depends on it. -/
def pyLower (s : String) : String := ⟨s.data.map Char.toLower⟩

/-- Python `str.lstrip()`. -/
def pyLstrip (s : String) : String := ⟨s.data.dropWhile pyIsSpaceChar⟩

/-- Python `str.rstrip()`. -/
def pyRstrip (s : String) : String :=
  ⟨(s.data.reverse.dropWhile pyIsSpaceChar).reverse⟩

/-- Python `str.strip()`. -/
def pyStrip (s : String) : String := pyRstrip (pyLstrip s)

/-- Line-break characters recognised by Python `str.splitlines`
(besides the two-character sequence `"\r\n"`, handled separately). -/
def isLineBreakChar (c : Char) : Bool :=
  ['\n', '\r', '\x0b', '\x0c', '\x1c', '\x1d', '\x1e', '\x85',
   Char.ofNat 0x2028, Char.ofNat 0x2029].contains c

/-- Python `str.splitlines(keepends=True)` on character lists.
`cur` is the (reversed) current line being accumulated. -/
def splitlinesKeepAux (cur : List Char) : List Char → List (List Char)
  | [] => if cur = [] then [] else [cur.reverse]
  | '\r' :: '\n' :: rest => (cur.reverse ++ ['\r', '\n']) :: splitlinesKeepAux [] rest
  | c :: rest =>
    if isLineBreakChar c then (cur.reverse ++ [c]) :: splitlinesKeepAux [] rest
    else splitlinesKeepAux (c :: cur) rest

/-- Python `str.splitlines(keepends=True)`. -/
def splitlinesKeep (s : String) : List String :=
  (splitlinesKeepAux [] s.data).map fun l => ⟨l⟩

/-- Python `str.splitlines()` (line terminators removed). -/
def splitlinesPlainAux (cur : List Char) : List Char → List (List Char)
  | [] => if cur = [] then [] else [cur.reverse]
  | '\r' :: '\n' :: rest => cur.reverse :: splitlinesPlainAux [] rest
  | c :: rest =>
    if isLineBreakChar c then cur.reverse :: splitlinesPlainAux [] rest
    else splitlinesPlainAux (c :: cur) rest

/-- Python `str.splitlines()`. -/
def splitlinesPlain (s : String) : List String :=
  (splitlinesPlainAux [] s.data).map fun l => ⟨l⟩

/-- Python `s.endswith(suffix)`. -/
def pyEndsWith (s suffix : String) : Bool :=
  listStartsWith suffix.data.reverse s.data.reverse

/-- Python `s.startswith(p)`. -/
def pyStartsWith (s p : String) : Bool := listStartsWith p.data s.data

/-- Concatenate a list of strings (Python `"".join`). -/
def joinAll (l : List String) : String := String.join l

/-- Model of `s.split(sep, 1)`:
the part before the first occurrence of `sep`, and — when `sep`
occurs — the part after it. -/
def pySplitOnceAux (sep : List Char) : List Char → (List Char × Option (List Char))
  | [] =>
    if listStartsWith sep [] then ([], some []) else ([], none)
  | l@(c :: t) =>
    if listStartsWith sep l then ([], some (l.drop sep.length))
    else
      let (pre, post) := pySplitOnceAux sep t
      (c :: pre, post)

/-- Python `s.split(sep, 1)` (`sep` is non-empty in all uses below). -/
def pySplitOnce (sep s : String) : String × Option String :=
  let (pre, post) := pySplitOnceAux sep.data s.data
  (⟨pre⟩, post.map fun l => ⟨l⟩)

/-! ## `difflib` (Python standard library), as used by `utils/diff.py`

`create_diff` calls `difflib.unified_diff(original_lines, fixed_lines,
fromfile="original", tofile="fixed", lineterm="", n=3)`.  The stdlib's
`SequenceMatcher.find_longest_match` is embedded through its documented
contract for `isjunk=None`: among all maximal matching blocks of the two
windows it returns the one starting earliest in `a`, and of those the one
starting earliest in `b`; the `autojunk` popularity heuristic (sequences
of ≥ 200 lines) is not modelled — it can change which blocks are chosen
for unequal inputs but never produces a non-equal opcode for identical
inputs, the only case any claim below evaluates. -/

/-- Length of the common prefix run of two line lists. -/
def runLen : List String → List String → Nat
  | x :: xs, y :: ys => if x = y then runLen xs ys + 1 else 0
  | _, _ => 0

/-- Size of the matching block starting at `(i, j)`, clipped to the
window ends `ahi`, `bhi`. -/
def candK (a b : List String) (ahi bhi i j : Nat) : Nat :=
  min (runLen (a.drop i) (b.drop j)) (min (ahi - i) (bhi - j))

/-- Replacement for `List.range'` with fully controlled defeq:
  `natRange s n = [s, s+1, ..., s+n-1]`. -/
def natRange (s : Nat) : Nat → List Nat
  | 0 => []
  | n + 1 => s :: natRange (s + 1) n

/-- Inner maximisation of `find_longest_match`: scan the `b`-side start
positions for a fixed `a`-side start `i`, keeping the current best
`(besti, bestj, bestsize)`; a candidate replaces the best only when
strictly larger, so the earliest position wins ties. -/
def innerBest (a b : List String) (ahi bhi i : Nat) :
    List Nat → (Nat × Nat × Nat) → (Nat × Nat × Nat)
  | [], best => best
  | j :: js, best =>
    innerBest a b ahi bhi i js
      (if candK a b ahi bhi i j > best.2.2 then (i, j, candK a b ahi bhi i j) else best)

/-- Outer maximisation of `find_longest_match` over the `a`-side starts. -/
def outerBest (a b : List String) (ahi bhi : Nat) (js : List Nat) :
    List Nat → (Nat × Nat × Nat) → (Nat × Nat × Nat)
  | [], best => best
  | i :: is, best => outerBest a b ahi bhi js is (innerBest a b ahi bhi i js best)

/-- Model of `difflib.SequenceMatcher.find_longest_match` on the window
`a[alo:ahi]`, `b[blo:bhi]` (per its documented contract, see above);
returns `(alo, blo, 0)` when nothing matches. -/
def find_longest_match (a b : List String) (alo ahi blo bhi : Nat) : Nat × Nat × Nat :=
  outerBest a b ahi bhi (natRange blo (bhi - blo)) (natRange alo (ahi - alo)) (alo, blo, 0)

/-- Recursive collection of matching blocks
(`SequenceMatcher.get_matching_blocks` before merging), fuel-bounded;
the top-level call supplies more fuel than the recursion depth can reach. -/
def matchingBlocksAux (a b : List String) :
    Nat → Nat → Nat → Nat → Nat → List (Nat × Nat × Nat)
  | 0, _, _, _, _ => []
  | fuel + 1, alo, ahi, blo, bhi =>
    let m := find_longest_match a b alo ahi blo bhi
    if m.2.2 = 0 then []
    else
      matchingBlocksAux a b fuel alo m.1 blo m.2.1 ++ [m] ++
        matchingBlocksAux a b fuel (m.1 + m.2.2) ahi (m.2.1 + m.2.2) bhi

/-- Merge adjacent matching blocks, then drop empty ones — the loop at
the end of `SequenceMatcher.get_matching_blocks`.  `acc` is the pending
block `(i1, j1, k1)` of the Python loop (initially `(0, 0, 0)`). -/
def mergeAdjacent (acc : Nat × Nat × Nat) :
    List (Nat × Nat × Nat) → List (Nat × Nat × Nat)
  | [] => if acc.2.2 ≠ 0 then [acc] else []
  | m :: rest =>
    if acc.1 + acc.2.2 = m.1 ∧ acc.2.1 + acc.2.2 = m.2.1 then
      mergeAdjacent (acc.1, acc.2.1, acc.2.2 + m.2.2) rest
    else
      (if acc.2.2 ≠ 0 then [acc] else []) ++ mergeAdjacent m rest

/-- Model of `SequenceMatcher.get_matching_blocks` (with the terminating sentinel
`(len a, len b, 0)`). -/
def get_matching_blocks (a b : List String) : List (Nat × Nat × Nat) :=
  mergeAdjacent (0, 0, 0)
      (matchingBlocksAux a b (a.length + b.length + 1) 0 a.length 0 b.length) ++
    [(a.length, b.length, 0)]

/-- One opcode `(tag, a1, a2, b1, b2)` of `SequenceMatcher.get_opcodes`;
the tag is one of `"replace"`, `"delete"`, `"insert"`, `"equal"`. -/
structure Opcode where
  tag : String
  a1 : Nat
  a2 : Nat
  b1 : Nat
  b2 : Nat
deriving DecidableEq, Repr

instance : Inhabited Opcode := ⟨⟨"equal", 0, 0, 0, 0⟩⟩

/-- The loop body of `SequenceMatcher.get_opcodes`: `i`, `j` are the
current positions in `a` and `b`. -/
def opcodesAux (i j : Nat) : List (Nat × Nat × Nat) → List Opcode
  | [] => []
  | (ai, bj, size) :: rest =>
    (if i < ai ∧ j < bj then [⟨"replace", i, ai, j, bj⟩]
     else if i < ai then [⟨"delete", i, ai, j, bj⟩]
     else if j < bj then [⟨"insert", i, ai, j, bj⟩]
     else []) ++
    (if size ≠ 0 then [⟨"equal", ai, ai + size, bj, bj + size⟩] else []) ++
    opcodesAux (ai + size) (bj + size) rest

/-- Model of `SequenceMatcher.get_opcodes`. -/
def get_opcodes (a b : List String) : List Opcode :=
  opcodesAux 0 0 (get_matching_blocks a b)

/-- The fix-up of the leading opcode in `get_grouped_opcodes`
(shrink a leading equal run to at most `n = 3` context lines). -/
def fixFirstOpcode : List Opcode → List Opcode
  | [] => []
  | c :: rest =>
    (if c.tag = "equal" then ⟨c.tag, max c.a1 (c.a2 - 3), c.a2, max c.b1 (c.b2 - 3), c.b2⟩
     else c) :: rest

/-- The fix-up of the trailing opcode in `get_grouped_opcodes`. -/
def fixLastOpcode (codes : List Opcode) : List Opcode :=
  match codes.getLast? with
  | none => []
  | some c =>
    codes.dropLast ++
      [if c.tag = "equal" then ⟨c.tag, c.a1, min c.a2 (c.a1 + 3), c.b1, min c.b2 (c.b1 + 3)⟩
       else c]

/-- The grouping loop of `get_grouped_opcodes` (`n = 3`, `nn = 6`):
a large equal opcode both closes the current group (clipped to 3 context
lines) and opens the next one. -/
def groupLoop (group : List Opcode) : List Opcode → List (List Opcode)
  | [] =>
    if group ≠ [] ∧ ¬(group.length = 1 ∧ (group.headI).tag = "equal") then [group]
    else []
  | c :: rest =>
    if c.tag = "equal" ∧ c.a2 - c.a1 > 6 then
      (group ++ [⟨c.tag, c.a1, min c.a2 (c.a1 + 3), c.b1, min c.b2 (c.b1 + 3)⟩]) ::
        groupLoop [⟨c.tag, max c.a1 (c.a2 - 3), c.a2, max c.b1 (c.b2 - 3), c.b2⟩] rest
    else groupLoop (group ++ [c]) rest

/-- Model of `SequenceMatcher.get_grouped_opcodes(n=3)`. -/
def get_grouped_opcodes (a b : List String) : List (List Opcode) :=
  let codes := get_opcodes a b
  let codes := if codes = [] then [⟨"equal", 0, 1, 0, 1⟩] else codes
  groupLoop [] (fixLastOpcode (fixFirstOpcode codes))

/-- Model of `difflib._format_range_unified`. -/
def formatRangeUnified (start stop : Nat) : String :=
  let beginning := start + 1
  let length := stop - start
  if length = 1 then toString beginning
  else toString (if length = 0 then beginning - 1 else beginning) ++ "," ++ toString length

/-- Python slice `a[i:j]` on line lists. -/
def sliceList (a : List String) (i j : Nat) : List String := (a.drop i).take (j - i)

/-- The per-opcode output lines of `difflib.unified_diff`. -/
def opcodeLines (a b : List String) (c : Opcode) : List String :=
  if c.tag = "equal" then (sliceList a c.a1 c.a2).map (" " ++ ·)
  else
    (if c.tag = "replace" ∨ c.tag = "delete" then (sliceList a c.a1 c.a2).map ("-" ++ ·)
     else []) ++
    (if c.tag = "replace" ∨ c.tag = "insert" then (sliceList b c.b1 c.b2).map ("+" ++ ·)
     else [])

/-- The `@@ -... +... @@` hunk header of one group (`lineterm = ""`). -/
def hunkHeader (g : List Opcode) : String :=
  let first := g.headI
  let last := g.getLastI
  "@@ -" ++ formatRangeUnified first.a1 last.a2 ++
    " +" ++ formatRangeUnified first.b1 last.b2 ++ " @@"

/-- Model of `difflib.unified_diff(a, b, fromfile="original", tofile="fixed",
lineterm="", n=3)`, as a list of the yielded lines.  The two file-header
lines are produced before the first group only. -/
def unified_diff (a b : List String) : List String :=
  match get_grouped_opcodes a b with
  | [] => []
  | groups =>
    ["--- original", "+++ fixed"] ++
      groups.flatMap fun g => hunkHeader g :: g.flatMap (opcodeLines a b)

/-- Model of `if original_lines and not original_lines[-1].endswith('\n'):
original_lines[-1] += '\n'` — force a trailing newline on the last line. -/
def forceTrailingNewline (lines : List String) : List String :=
  match lines.getLast? with
  | none => lines
  | some last =>
    if pyEndsWith last "\n" then lines else lines.dropLast ++ [last ++ "\n"]

/-- Embedding of `utils/diff.py`'s `create_diff(original, fixed)`.
The Python function normalises `None` inputs with `original or ""`;
the dispatcher and fallback always pass genuine strings, and the
`None`-to-`""` normalisation is the identity on strings, so the embedding
takes `String` arguments directly.  The `try`/`except` around the
`difflib` call cannot fire (the embedded pipeline is total), so the
`"# Error generating diff"` branch is dead here as in the source. -/
def create_diff (original fixed : String) : String :=
  let original_lines := forceTrailingNewline (splitlinesKeep original)
  let fixed_lines := forceTrailingNewline (splitlinesKeep fixed)
  let diff_lines := unified_diff original_lines fixed_lines
  if diff_lines = [] ∨
      diff_lines.all (fun l =>
        pyStartsWith l "---" || pyStartsWith l "+++" || pyStartsWith l "@@") then
    "```diff\n# No changes detected\n```"
  else
    "```diff\n" ++ pyRstrip (joinAll diff_lines) ++ "\n```"

/-! ## `utils/code_extractor.py`

The two `re` patterns are embedded as direct scanning functions whose
semantics were derived from the backtracking behaviour of the Python
`re` engine on these specific patterns (leftmost match; greedy
quantifiers with the embedded lookahead/lookbehind assertions). -/

/-- Word characters `\w` of Python `re` (ASCII part; Unicode ones are not
modelled and no theorem depends on them). -/
def isWordChar (c : Char) : Bool := c.isAlphanum || c = '_'

/-- The backtick character (written via its code point to keep backticks
out of the Lean source). -/
def backtick : Char := Char.ofNat 96

/-- For the fenced pattern (three backticks, optional word tag, newline,
lazy DOTALL body, newline, three backticks): find the earliest closing
fence line start, returning the body before it.  The lazy body makes the
first occurrence the match. -/
def findFenceClose : List Char → Option (List Char)
  | [] => none
  | c :: rest =>
    if c = '\n' ∧ listStartsWith [backtick, backtick, backtick] rest then some []
    else (findFenceClose rest).map (c :: ·)

/-- Try the fenced pattern anchored at this position: three backticks,
an optional greedy word run that must be followed by a newline, then the
lazy body up to the earliest `"\n```"`.  Returns `(language-tag, body)`. -/
def fencedAt (cs : List Char) : Option (List Char × List Char) :=
  if listStartsWith [backtick, backtick, backtick] cs then
    let rest := cs.drop 3
    let w := rest.takeWhile isWordChar
    match rest.drop w.length with
    | '\n' :: body => (findFenceClose body).map fun code => (w, code)
    | _ => none
  else none

/-- Model of `re.search` of the fenced pattern: earliest start wins. -/
def fencedSearch : List Char → Option (List Char × List Char)
  | [] => none
  | l@(_ :: t) =>
    match fencedAt l with
    | some r => some r
    | none => fencedSearch t

/-- The lazy body of the inline pattern `` `{1,3}(?!`)(.*?)(?<!`)`{1,3} ``:
consume characters (no newline — no DOTALL here) until the earliest
backtick whose predecessor is not a backtick; `prev` is the previously
consumed character (initially the last opening backtick). -/
def inlineBody (prev : Char) : List Char → Option (List Char)
  | [] => none
  | c :: rest =>
    if c = backtick ∧ prev ≠ backtick then some []
    else if c = '\n' then none
    else (inlineBody c rest).map (c :: ·)

/-- Try the inline pattern anchored at this position.  A backtick run
longer than 3 can never satisfy the `(?!`)` lookahead at this start. -/
def inlineAt (cs : List Char) : Option (List Char) :=
  let r := (cs.takeWhile (· = backtick)).length
  if r = 0 ∨ r > 3 then none
  else inlineBody backtick (cs.drop r)

/-- Model of `re.search` of the inline pattern. -/
def inlineSearch : List Char → Option (List Char)
  | [] => none
  | l@(_ :: t) =>
    match inlineAt l with
    | some r => some r
    | none => inlineSearch t

/-- Model of `re.match(r"^ {4,}|\t", line)`: the line starts with at least four
spaces, or starts with a tab. -/
def isIndentedLine (line : String) : Bool :=
  (line.data.takeWhile (· = ' ')).length ≥ 4 || listStartsWith ['\t'] line.data

/-- Model of `re.sub(r"^ {4,}|\t", "", line, count=1)` on a collected indented
line: remove the greedy leading space run when it has length ≥ 4,
otherwise remove the first tab (at position 0 for collected lines). -/
def dedentLine (line : String) : String :=
  let spaces := line.data.takeWhile (· = ' ')
  if spaces.length ≥ 4 then ⟨line.data.drop spaces.length⟩
  else match line.data with
    | '\t' :: rest => ⟨rest⟩
    | l => ⟨l⟩

/-- Embedding of `_is_likely_code_line` from `utils/code_extractor.py`. -/
def is_likely_code_line (line : String) : Bool :=
  let line_lower := pyLower line
  ["def ", "function ", "const ", "let ", "var ", "class ", "import ", "from ",
   "async ", "await ", "return ", "if ", "for ", "while ", "select ", "insert ",
   "=>", "->", "\x7b", "\x7d", "(", ")", "[", "]", "=", "==", "+=", ":", ";", "#"
  ].any fun kw => pyInB kw line_lower

/-- Embedding of `_detect_language` from `utils/code_extractor.py`. -/
def detect_language (code : String) : String :=
  if code = "" then "unknown"
  else
    let code_lower := pyLower code
    if ["def ", "print(", "import ", "from ", "self."].any (pyInB · code_lower) then
      "python"
    else if ["function ", "const ", "let ", "var ", "=>", "console.log"].any
        (pyInB · code_lower) then
      "javascript"
    else if ["func ", "package ", "import ", "type ", "struct "].any
        (pyInB · code_lower) then
      "go"
    else if ["select ", "from ", "where ", "insert into", "update ", "delete "].any
        (pyInB · code_lower) then
      "sql"
    else if (["public class", "void ", "new ", "return "].any (pyInB · code_lower)) &&
        pyInB "\x7b" code then
      "java"
    else if (["echo ", "$", "export ", "sudo "].any (pyInB · code_lower)) &&
        !(pyInB "```" code) then
      "bash"
    else "unknown"

/-- Python `sep.join(items)` (by structural recursion, for easy
reasoning; agrees with Python's `join`, with `join [] = ""`). -/
def joinWith (sep : String) : List String → String
  | [] => ""
  | [x] => x
  | x :: y :: rest => x ++ sep ++ joinWith sep (y :: rest)

/-- The indented lines collected by step 3 of `extract_code`. -/
def indentedLinesOf (text : String) : List String :=
  (splitlinesPlain text).filter isIndentedLine

/-- The dedented, joined, stripped indented-block code of step 3. -/
def indentedCode (text : String) : String :=
  pyStrip (joinWith "\n" ((indentedLinesOf text).map dedentLine))

/-- The raw lines collected by step 4 of `extract_code` (original lines
whose stripped form is non-empty and looks like code). -/
def heuristicLinesOf (text : String) : List String :=
  (splitlinesPlain text).filter fun line =>
    pyStrip line ≠ "" && is_likely_code_line (pyStrip line)

/-- The input normalisation at the top of `extract_code`:
`None`/non-`str`/empty input and whitespace-only input short-circuit to
`("", "")`; otherwise the stripped text reaches the heuristics. -/
def preprocessedText (input : Option String) : Option String :=
  match input with
  | none => none
  | some text0 =>
    if text0 = "" then none
    else
      let text := pyStrip text0
      if text = "" then none else some text

/-- Steps 3–5 of `extract_code` (reached when neither the fenced nor the
inline pattern produced non-empty code). -/
def extractStep34 (text : String) : String × String :=
  -- 3. indented block
  let afterIndented :=
    if indentedLinesOf text ≠ [] then
      let code := indentedCode text
      if code ≠ "" then some (code, detect_language code) else none
    else none
  match afterIndented with
  | some r => r
  | none =>
    -- 4. heuristic raw code lines
    if heuristicLinesOf text ≠ [] then
      let code := pyStrip (joinWith "\n" (heuristicLinesOf text))
      (code, detect_language code)
    else
      -- 5. no code found
      ("", "")

/-- Steps 1–5 of `extract_code` on the stripped text. -/
def extractCore (text : String) : String × String :=
  -- 1. fenced code block
  let afterFenced :=
    match fencedSearch text.data with
    | some (w, body) =>
      let lang := pyLower ⟨w⟩
      let code := pyRstrip ⟨body⟩
      if code ≠ "" then some (code, if lang = "" then "unknown" else lang)
      else none
    | none => none
  match afterFenced with
  | some r => r
  | none =>
    -- 2. inline code
    let afterInline :=
      match inlineSearch text.data with
      | some body =>
        let code := pyStrip ⟨body⟩
        if code ≠ "" then some (code, "unknown") else none
      | none => none
    match afterInline with
    | some r => r
    | none => extractStep34 text

/-- Embedding of `extract_code` from `utils/code_extractor.py`.  The argument is
`Option String`: `none` models passing `None` (together with any other
non-`str` value, all rejected by the same `isinstance` guard). -/
def extract_code (input : Option String) : String × String :=
  match preprocessedText input with
  | none => ("", "")
  | some text => extractCore text

/-! ## Python JSON values and `json.loads`

`_analyze_with_groq` returns `json.loads(...)` unvalidated, so downstream
code manipulates arbitrary Python values.  They are modelled by `Json`;
the fallible Python operations on them (`v[key]`, `v.get`, `v.lower()`)
return `Except PyErr`. -/

/-- A Python value produced by `json.loads`.  JSON numbers carrying a
fraction or exponent (and `NaN`/`Infinity`) become Python floats, whose
IEEE-754 semantics are not modelled: they are carried as raw text and no
claim below depends on their value. -/
inductive Json where
  | null
  | bool (b : Bool)
  | num (n : Int)
  | flt (raw : String)
  | str (s : String)
  | arr (xs : List Json)
  | obj (entries : List (String × Json))
deriving Repr

/-- An exception escaping the embedded Python code. -/
inductive PyErr where
  | keyError (key : String)
  | typeError
  | attributeError
  | validationError
deriving DecidableEq, Repr

/-- Insert into a Python dict under construction: an existing key keeps
its position and takes the new value, a new key is appended. -/
def objInsert (k : String) (v : Json) : List (String × Json) → List (String × Json)
  | [] => [(k, v)]
  | (k2, v2) :: rest =>
    if k2 = k then (k2, v) :: rest else (k2, v2) :: objInsert k v rest

/-- JSON whitespace accepted by `json.loads` between tokens. -/
def jsonWs (cs : List Char) : List Char :=
  cs.dropWhile fun c => [' ', '\t', '\n', '\r'].contains c

/-- Is `c` a hexadecimal digit? -/
def isHexDigitChar (c : Char) : Bool :=
  c.isDigit || ('a' ≤ c && c ≤ 'f') || ('A' ≤ c && c ≤ 'F')

/-- Hex digit value (for `\uXXXX` escapes). -/
def hexVal (c : Char) : Nat :=
  if c.isDigit then c.toNat - '0'.toNat
  else if 'a' ≤ c ∧ c ≤ 'f' then c.toNat - 'a'.toNat + 10
  else if 'A' ≤ c ∧ c ≤ 'F' then c.toNat - 'A'.toNat + 10
  else 0

/-- Parse the content of a JSON string after its opening quote; returns
the decoded characters and the remainder after the closing quote.
`\uXXXX` escapes decode to the code unit (surrogate-pair combination is
not modelled — a surrogate code unit decodes through `Char.ofNat`'s
default; no claim uses non-BMP escapes). -/
def parseJString : Nat → List Char → Option (List Char × List Char)
  | 0, _ => none
  | _ + 1, [] => none
  | fuel + 1, c :: rest =>
    if c = '"' then some ([], rest)
    else if c = '\\' then
      match rest with
      | '"' :: r => (parseJString fuel r).map fun (s, t) => ('"' :: s, t)
      | '\\' :: r => (parseJString fuel r).map fun (s, t) => ('\\' :: s, t)
      | '/' :: r => (parseJString fuel r).map fun (s, t) => ('/' :: s, t)
      | 'b' :: r => (parseJString fuel r).map fun (s, t) => ('\x08' :: s, t)
      | 'f' :: r => (parseJString fuel r).map fun (s, t) => ('\x0c' :: s, t)
      | 'n' :: r => (parseJString fuel r).map fun (s, t) => ('\n' :: s, t)
      | 'r' :: r => (parseJString fuel r).map fun (s, t) => ('\r' :: s, t)
      | 't' :: r => (parseJString fuel r).map fun (s, t) => ('\t' :: s, t)
      | 'u' :: h1 :: h2 :: h3 :: h4 :: r =>
        if isHexDigitChar h1 && isHexDigitChar h2 && isHexDigitChar h3 && isHexDigitChar h4 then
          let n := ((hexVal h1 * 16 + hexVal h2) * 16 + hexVal h3) * 16 + hexVal h4
          (parseJString fuel r).map fun (s, t) => (Char.ofNat n :: s, t)
        else none
      | _ => none
    else if c.toNat < 0x20 then none  -- unescaped control characters rejected
    else (parseJString fuel rest).map fun (s, t) => (c :: s, t)

/-- Digits to a natural number. -/
def digitsToNat (ds : List Char) : Nat :=
  ds.foldl (fun acc c => acc * 10 + (c.toNat - '0'.toNat)) 0

/-- Parse a JSON number (strict grammar as in `json.loads`: optional
minus, `0` or a non-zero-led digit run, optional fraction and exponent;
plus Python's accepted `NaN`, `Infinity`, `-Infinity`).  Numbers with a
fraction or exponent become `Json.flt`. -/
def parseNumber (cs : List Char) : Option (Json × List Char) :=
  match cs with
  | 'N' :: 'a' :: 'N' :: rest => some (.flt "nan", rest)
  | 'I' :: 'n' :: 'f' :: 'i' :: 'n' :: 'i' :: 't' :: 'y' :: rest => some (.flt "inf", rest)
  | '-' :: 'I' :: 'n' :: 'f' :: 'i' :: 'n' :: 'i' :: 't' :: 'y' :: rest =>
    some (.flt "-inf", rest)
  | _ =>
    let (neg, cs1) := match cs with
      | '-' :: t => (true, t)
      | t => (false, t)
    let intPart : Option (List Char × List Char) :=
      match cs1 with
      | '0' :: t => some (['0'], t)
      | c :: t =>
        if c.isDigit ∧ c ≠ '0' then some (c :: t.takeWhile Char.isDigit, t.dropWhile Char.isDigit)
        else none
      | [] => none
    match intPart with
    | none => none
    | some (ip, cs2) =>
      let (fracPart, cs3) : Option (List Char) × List Char :=
        match cs2 with
        | '.' :: t =>
          let ds := t.takeWhile Char.isDigit
          if ds = [] then (none, cs2) else (some ds, t.dropWhile Char.isDigit)
        | _ => (none, cs2)
      -- a dot not followed by digits makes the whole number invalid in json.loads
      if (match cs2 with
          | '.' :: t => ((t.takeWhile Char.isDigit).isEmpty : Bool)
          | _ => false) then none
      else
        let (expPart, cs4) : Option (List Char) × List Char :=
          match cs3 with
          | e :: t =>
            if e = 'e' ∨ e = 'E' then
              let (sgn, t2) := match t with
                | '+' :: u => (['+'], u)
                | '-' :: u => (['-'], u)
                | u => (([] : List Char), u)
              let ds := t2.takeWhile Char.isDigit
              if ds = [] then (none, cs3) else (some (e :: sgn ++ ds), t2.dropWhile Char.isDigit)
            else (none, cs3)
          | [] => (none, cs3)
        match fracPart, expPart with
        | none, none =>
          let n : Int := Int.ofNat (digitsToNat ip)
          some (.num (if neg then -n else n), cs4)
        | _, _ =>
          some (.flt ⟨(if neg then ['-'] else []) ++ ip ++
            (match fracPart with | some f => '.' :: f | none => []) ++
            (expPart.getD [])⟩, cs4)

mutual

/-- Value parser of `json.loads` (recursive descent, fuel-bounded; the
top-level call supplies fuel exceeding any possible nesting depth). -/
def parseValue : Nat → List Char → Option (Json × List Char)
  | 0, _ => none
  | fuel + 1, cs0 =>
    match jsonWs cs0 with
    | 'n' :: 'u' :: 'l' :: 'l' :: rest => some (.null, rest)
    | 't' :: 'r' :: 'u' :: 'e' :: rest => some (.bool true, rest)
    | 'f' :: 'a' :: 'l' :: 's' :: 'e' :: rest => some (.bool false, rest)
    | '"' :: rest => (parseJString (fuel + 1) rest).map fun (s, t) => (.str ⟨s⟩, t)
    | '[' :: rest =>
      (match jsonWs rest with
       | ']' :: rest2 => some (.arr [], rest2)
       | _ => (parseArrayItems fuel rest).map fun (xs, t) => (.arr xs, t))
    | '\x7b' :: rest =>
      (match jsonWs rest with
       | '\x7d' :: rest2 => some (.obj [], rest2)
       | _ => (parseObjItems fuel [] rest).map fun (es, t) => (.obj es, t))
    | cs => parseNumber cs

/-- Comma-separated array items up to the closing bracket. -/
def parseArrayItems : Nat → List Char → Option (List Json × List Char)
  | 0, _ => none
  | fuel + 1, cs =>
    match parseValue fuel cs with
    | none => none
    | some (v, rest) =>
      match jsonWs rest with
      | ',' :: rest2 =>
        (parseArrayItems fuel rest2).map fun (xs, t) => (v :: xs, t)
      | ']' :: rest2 => some ([v], rest2)
      | _ => none

/-- Comma-separated `"key": value` pairs up to the closing brace,
accumulating with Python-dict duplicate-key semantics. -/
def parseObjItems : Nat → List (String × Json) → List Char → Option (List (String × Json) × List Char)
  | 0, _, _ => none
  | fuel + 1, acc, cs =>
    match jsonWs cs with
    | '"' :: rest =>
      match parseJString (fuel + 1) rest with
      | none => none
      | some (k, rest2) =>
        match jsonWs rest2 with
        | ':' :: rest3 =>
          match parseValue fuel rest3 with
          | none => none
          | some (v, rest4) =>
            let acc2 := objInsert ⟨k⟩ v acc
            match jsonWs rest4 with
            | ',' :: rest5 => parseObjItems fuel acc2 rest5
            | '\x7d' :: rest5 => some (acc2, rest5)
            | _ => none
        | _ => none
    | _ => none

end

/-- Model of `json.loads`: parse one JSON document; trailing non-whitespace is an
error, as is any parse failure. -/
def jsonLoads (s : String) : Except Unit Json :=
  match parseValue (s.data.length + 1) s.data with
  | some (v, rest) => if jsonWs rest = [] then .ok v else .error ()
  | none => .error ()

/-! ## Python operations on `json.loads` results -/

/-- Python `v[key]` with a string key: dict lookup (`KeyError` when
missing); any other value raises `TypeError` (`string indices must be
integers`, `list indices must be integers`, `'NoneType' object is not
subscriptable`, …). -/
def pyGetItem (v : Json) (key : String) : Except PyErr Json :=
  match v with
  | .obj es =>
    match es.lookup key with
    | some x => .ok x
    | none => .error (.keyError key)
  | _ => .error .typeError

/-- Python `v.get(key, default)`: only dicts have `.get`
(`AttributeError` otherwise). -/
def pyDictGet (v : Json) (key : String) (fallback : Json) : Except PyErr Json :=
  match v with
  | .obj es => .ok ((es.lookup key).getD fallback)
  | _ => .error .attributeError

/-- Python `v.lower()`: only strings have `.lower`
(`AttributeError` otherwise). -/
def pyStrLowerM (v : Json) : Except PyErr String :=
  match v with
  | .str s => .ok (pyLower s)
  | _ => .error .attributeError

/-- Python `v == some_string` for a `json.loads` value `v`: true exactly
when `v` is that string (comparison between different types is `False`,
never an error). -/
def jsonEqStr (v : Json) (s : String) : Bool :=
  match v with
  | .str t => t = s
  | _ => false

/-- Python truthiness of a `json.loads` value (`bool(v)`).  A float is
modelled as truthy — `0.0` is falsy in Python but unreachable in any
claim below. -/
def pyTruthy (v : Json) : Bool :=
  match v with
  | .null => false
  | .bool b => b
  | .num n => n ≠ 0
  | .flt _ => true
  | .str s => s ≠ ""
  | .arr xs => ¬xs.isEmpty
  | .obj es => ¬es.isEmpty

/-- Python `repr` of a `json.loads` value (used only through `str`/
f-string formatting of non-string values, which no claim inspects;
string-content escaping inside `repr` is not modelled). -/
def pyRepr : Json → String
  | .null => "None"
  | .bool true => "True"
  | .bool false => "False"
  | .num n => toString n
  | .flt raw => raw
  | .str s => "\x27" ++ s ++ "\x27"
  | .arr xs =>
    "[" ++ String.intercalate ", " (xs.attach.map fun x => pyRepr x.1) ++ "]"
  | .obj es =>
    "\x7b" ++
      String.intercalate ", "
        (es.attach.map fun e => "\x27" ++ e.1.1 ++ "\x27: " ++ pyRepr e.1.2) ++
      "\x7d"
decreasing_by
  · have h := List.sizeOf_lt_of_mem x.2
    simp only [Json.arr.sizeOf_spec]
    omega
  · have h1 : sizeOf e.1.2 < sizeOf e.1 := by
      obtain ⟨a, b⟩ := e.1
      simp
    have h2 := List.sizeOf_lt_of_mem e.2
    simp only [Json.obj.sizeOf_spec]
    omega

/-- Python `str(v)` / f-string interpolation of a `json.loads` value. -/
def pyFormat (v : Json) : String :=
  match v with
  | .str s => s
  | .bool true => "True"
  | .bool false => "False"
  | .null => "None"
  | .num n => toString n
  | .flt raw => raw
  | v => pyRepr v

/-! ## `agent.py` — the Review Requester

The network interaction of `_analyze_with_groq` (the `httpx` POST inside
its `try` block) is modelled by an oracle value describing what the
attempt encountered; the request construction (prompt, headers, payload)
does not influence any observable property and is not embedded. -/

/-- What one Groq API call attempt encounters, from the point of view of
the `try` block of `_analyze_with_groq`:
* `response status content` — an HTTP response arrived; for status 200,
  `content` is `resp.json()["choices"][0]["message"]["content"]`
  (ignored for any other status, where the code returns before reading
  the body);
* `timeout` — `httpx.TimeoutException`;
* `bodyNotJson` — a 200 response whose body is not JSON
  (`resp.json()` raises `json.JSONDecodeError`);
* `badEnvelope` — a 200 response whose parsed body does not have the
  `choices[0].message.content` string shape (`KeyError`/`IndexError`/
  `TypeError`/`AttributeError`, all landing in the generic handler);
* `requestError` — any other exception while issuing the request. -/
inductive ApiOutcome where
  | response (status : Nat) (content : String)
  | timeout
  | bodyNotJson
  | badEnvelope
  | requestError
deriving DecidableEq, Repr

/-- Embedding of `SniffBot._fallback_result(explanation, original_code)`. -/
def fallback_result (explanation code : String) : Json :=
  .obj [("severity", .str "Medium"),
        ("explanation", .str explanation),
        ("fixed_code", .str code),
        ("commit_message", .str "chore: retry analysis"),
        ("diff", .str (create_diff code code))]

/-- Embedding of `SniffBot._extract_json(text)`. -/
def extract_json (text : String) : String :=
  if pyInB "```json" text then
    pyStrip (pySplitOnce "```" ((pySplitOnce "```json" text).2.getD "")).1
  else if pyInB "```" text then
    pyStrip (pySplitOnce "```" ((pySplitOnce "```" text).2.getD "")).1
  else pyStrip text

/-- Embedding of `SniffBot._analyze_with_groq(code, lang)` given the outcome of
the network attempt.  Every path returns a value (the function itself
never raises): the result of a successful parse is returned *unvalidated*,
exactly as `return json.loads(json_str)` does. -/
def analyze_with_groq (apiKey : Option String) (code lang : String)
    (outcome : ApiOutcome) : Json :=
  if (apiKey.getD "") = "" then fallback_result "Bot not configured" code
  else
    match outcome with
    | .response status content =>
      if status = 429 then fallback_result "AI rate limit reached — try again soon" code
      else if status ≠ 200 then
        fallback_result ("AI service error (" ++ toString status ++ ")") code
      else
        match jsonLoads (extract_json (pyStrip content)) with
        | .ok v => v
        | .error _ => fallback_result "AI returned invalid JSON" code
    | .timeout => fallback_result "AI timed out — try shorter code" code
    | .bodyNotJson => fallback_result "AI returned invalid JSON" code
    | .badEnvelope => fallback_result "AI analysis failed" code
    | .requestError => fallback_result "AI analysis failed" code

/-- The condition of `_analyze_with_retry`'s early return:
`analysis["severity"] != "Medium" or "rate limit" not in
analysis["explanation"].lower()`, with Python's short-circuit `or` and
the exceptions the two accesses can raise. -/
def retryCond (analysis : Json) : Except PyErr Bool :=
  match pyGetItem analysis "severity" with
  | .error e => .error e
  | .ok sev =>
    if ¬ jsonEqStr sev "Medium" then .ok true
    else
      match pyGetItem analysis "explanation" with
      | .error e => .error e
      | .ok expl =>
        match pyStrLowerM expl with
        | .error e => .error e
        | .ok lowered => .ok (¬ pyInB "rate limit" lowered)

/-- The loop of `_analyze_with_retry`: `attempt` is the current 0-based
attempt index, the second argument the remaining iterations of
`range(max_retries)`.  The `asyncio.sleep` backoff affects timing only
and is not embedded. -/
def retryLoop (apiKey : Option String) (code lang : String)
    (oracle : Nat → ApiOutcome) : Nat → Nat → Except PyErr Json
  | _, 0 => .ok (fallback_result "Max retries exceeded" code)
  | attempt, remaining + 1 =>
    match retryCond (analyze_with_groq apiKey code lang (oracle attempt)) with
    | .error e => .error e
    | .ok true => .ok (analyze_with_groq apiKey code lang (oracle attempt))
    | .ok false => retryLoop apiKey code lang oracle (attempt + 1) remaining

/-- Embedding of `SniffBot._analyze_with_retry(code, lang, max_retries)`; the
dispatcher always calls it with the default `max_retries = 3`. -/
def analyze_with_retry (apiKey : Option String) (code lang : String)
    (oracle : Nat → ApiOutcome) (max_retries : Nat) : Except PyErr Json :=
  retryLoop apiKey code lang oracle 0 max_retries

/-- Observer: how many times `_analyze_with_retry` invokes
`_analyze_with_groq` (counting the attempt during which an exception
escapes, when one does). -/
def retryCallsLoop (apiKey : Option String) (code lang : String)
    (oracle : Nat → ApiOutcome) : Nat → Nat → Nat
  | _, 0 => 0
  | attempt, remaining + 1 =>
    match retryCond (analyze_with_groq apiKey code lang (oracle attempt)) with
    | .error _ => 1
    | .ok true => 1
    | .ok false => 1 + retryCallsLoop apiKey code lang oracle (attempt + 1) remaining

/-- Number of underlying analysis calls made by `analyze_with_retry`
with `max_retries = 3`. -/
def retryCalls (apiKey : Option String) (code lang : String)
    (oracle : Nat → ApiOutcome) : Nat :=
  retryCallsLoop apiKey code lang oracle 0 3

/-! ## The A2A data model

Modelled from the spec: `models/a2a.py` is not under `src/`; the shapes
below follow §3 of the specification (Message, Artifact, TaskResult) and
the construction sites in `agent.py`.  Fields omitted at a construction
site take the defaults the spec implies: optional identifiers default to
`None`, a `TaskResult`'s artifacts to `None` and its kind tag to
`"task"`. -/

/-- A message part (`kind` is `"text"` today, §3). -/
structure MessagePart where
  kind : String
  text : Option String
deriving DecidableEq, Repr

/-- A chat message (§3). -/
structure A2AMessage where
  role : String
  parts : List MessagePart
  taskId : Option String
  contextId : Option String
deriving DecidableEq, Repr

/-- A named artifact attached to a task result (§3). -/
structure Artifact where
  name : String
  parts : List MessagePart
deriving DecidableEq, Repr

/-- Task status: a state tag with the attached message (§3). -/
structure TaskStatus where
  state : String
  message : A2AMessage
deriving DecidableEq, Repr

/-- A task result (§3). -/
structure TaskResult where
  id : String
  contextId : String
  status : TaskStatus
  artifacts : Option (List Artifact)
  history : List A2AMessage
  kind : String
deriving DecidableEq, Repr

/-- The process-wide conversation store `_CONVERSATION_MEMORY`, as a
total map with `dict.get(context_id, [])` semantics. -/
def Memory : Type := String → List A2AMessage

/-- Model of `_CONVERSATION_MEMORY.get(k, [])`. -/
def memGet (m : Memory) (k : String) : List A2AMessage := m k

/-- Model of `_CONVERSATION_MEMORY[k] = v`. -/
def memSet (m : Memory) (k : String) (v : List A2AMessage) : Memory :=
  fun k2 => if k2 = k then v else m k2

/-- Python `x or fresh` for an optional string (`context_id or
str(uuid4())`): `None` and the empty string are both falsy. -/
def pyOrElse (x : Option String) (fresh : String) : String :=
  match x with
  | none => fresh
  | some s => if s = "" then fresh else s

/-- Model of `" ".join(p.text or "" for p in msg.parts if p.kind == "text")`. -/
def fullTextOf (msg : A2AMessage) : String :=
  joinWith " "
    ((msg.parts.filter fun p => p.kind = "text").map fun p => p.text.getD "")

/-- Embedding of `SniffBot._is_greeting(text)`. -/
def is_greeting (text : String) : Bool :=
  (["hi", "hello", "hey", "yo", "sup", "morning", "evening"].any
      fun g => pyInB g text) &&
    pyInB "@sniffbot" text &&
    !(pyInB "sniff this" text) &&
    !(pyInB "fix last" text)

/-- Embedding of `SniffBot._is_help_command(text)`. -/
def is_help_command (text : String) : Bool :=
  ["help", "?", "how", "what", "usage", "commands"].any fun cmd => pyInB cmd text

/-! ## `agent.py` — response builders -/

/-- The greeting text of `_build_greeting_result` (the Python source
applies `.strip()` to the raw triple-quoted literal). -/
def greetingText : String :=
  pyStrip "\n**Hello! I\x27m SniffBot**  \nYour AI-powered code reviewer.\n\n**How to use me:**\n1. Paste any code\n2. Say `@SniffBot sniff this`\n3. I’ll return severity, fix, diff, and commit message\n\n**Example:**\n```\n@SniffBot sniff this\n    print(\"Hello \" + 42)\n```\n\nEvery Friday → **Smell of the Week**\n\nTry it now!\n"

/-- The help text of `_build_help_result`. -/
def helpText : String :=
  pyStrip "\n**SniffBot Help**\n\n**Trigger:**\n```\n@SniffBot sniff this\n[your code]\n```\n@SniffBot fix last\n→ Re-analyze the last code you sent\n\n**Code Formats Supported:**\n- ```python\n...\n```\n- `inline code`\n- 4-space indent\n- Raw lines with `def`, `function`, etc.\n\n**I return:**\n- Severity (Low/Medium/High)\n- 1-sentence explanation\n- Fixed code diff\n- Conventional commit message\n\n**Weekly:** Smell of the Week (Fri 10 AM UTC)\n"

/-- Embedding of `SniffBot._build_greeting_result` (artifacts omitted, `kind`
defaulted, the agent message carries both identifiers). -/
def build_greeting_result (task_id context_id : String)
    (history : List A2AMessage) : TaskResult :=
  let msg : A2AMessage :=
    ⟨"agent", [⟨"text", some greetingText⟩], some task_id, some context_id⟩
  ⟨task_id, context_id, ⟨"input-required", msg⟩, none, history ++ [msg], "task"⟩

/-- Embedding of `SniffBot._build_help_result`. -/
def build_help_result (task_id context_id : String)
    (history : List A2AMessage) : TaskResult :=
  let msg : A2AMessage :=
    ⟨"agent", [⟨"text", some helpText⟩], some task_id, some context_id⟩
  ⟨task_id, context_id, ⟨"input-required", msg⟩, none, history ++ [msg], "task"⟩

/-- Embedding of `SniffBot._build_fallback_result` (note: the agent message carries
`taskId` but no `contextId` in the source). -/
def build_fallback_result (text task_id context_id : String)
    (history : List A2AMessage) : TaskResult :=
  let msg : A2AMessage := ⟨"agent", [⟨"text", some text⟩], some task_id, none⟩
  ⟨task_id, context_id, ⟨"input-required", msg⟩, none, history ++ [msg], "task"⟩

/-- Embedding of `SniffBot._build_error_result`. -/
def build_error_result (error_msg task_id context_id : String)
    (history : List A2AMessage) : TaskResult :=
  let text := "**Error:** " ++ error_msg ++ "\n\nType `help` for usage."
  let msg : A2AMessage := ⟨"agent", [⟨"text", some text⟩], some task_id, none⟩
  ⟨task_id, context_id, ⟨"failed", msg⟩, none, history ++ [msg], "task"⟩

/-! ## `agent.py` — the Intent Dispatcher (`process_messages`) -/

/-- Model of the severity-emoji lookup `.get(sev, default)`:
dictionary lookup keyed by an arbitrary `json.loads` value; an
unhashable key (list or dict) raises `TypeError`. -/
def severityEmoji (sev : Json) : Except PyErr String :=
  match sev with
  | .arr _ => .error .typeError
  | .obj _ => .error .typeError
  | .str s =>
    .ok (if s = "Low" then "🟢" else if s = "Medium" then "🟡"
         else if s = "High" then "🔴" else "🔵")
  | _ => .ok "🔵"

/-- Model of `create_diff(code, analysis.get("fixed_code", code))` with the
argument still an arbitrary `json.loads` value: `create_diff` normalises
a falsy argument with `fixed or ""`, then `fixed.splitlines(...)` raises
`AttributeError` for a truthy non-string. -/
def createDiffOfJson (original : String) (fixed : Json) : Except PyErr String :=
  let f := if pyTruthy fixed then fixed else Json.str ""
  match f with
  | .str s => .ok (create_diff original s)
  | _ => .error .attributeError

/-- Pydantic validation of `MessagePart(kind="text", text=...)` for the
commit artifact, whose `text` is assigned `analysis['commit_message']`
unformatted.  Modelled from the spec: `models/a2a.py` is not under
`src/`; a Part carries payload *text* (§3), so a non-string is a
validation error. -/
def asPartText (v : Json) : Except PyErr String :=
  match v with
  | .str s => .ok s
  | _ => .error .validationError

/-- The review body shared verbatim by the `sniff this` branch and the
`fix last` branch of `process_messages` (they differ only in the header
of the response text): run `_analyze_with_retry`, build the diff, the
response text and the three artifacts.  Evaluation order of the fallible
accesses follows the source lines. -/
def analyzeAndRespond (apiKey : Option String) (oracle : Nat → ApiOutcome)
    (code lang header task_id context_id : String) :
    Except PyErr (A2AMessage × List Artifact) := do
  let analysis ← analyze_with_retry apiKey code lang oracle 3
  let fixedJ ← pyDictGet analysis "fixed_code" (Json.str code)
  let diff ← createDiffOfJson code fixedJ
  let sev ← pyGetItem analysis "severity"
  let emoji ← severityEmoji sev
  let expl ← pyGetItem analysis "explanation"
  let commit ← pyGetItem analysis "commit_message"
  let response_text := pyStrip
    ("\n**" ++ header ++ "** " ++ emoji ++ " **" ++ pyFormat sev ++ "**\n\n> " ++
     pyFormat expl ++ "\n\n**Fixed Code (Diff)**\n```diff\n" ++ diff ++
     "\n```\n\n**Commit Message**  \n`" ++ pyFormat commit ++ "`\n")
  let agent_msg : A2AMessage :=
    ⟨"agent", [⟨"text", some response_text⟩], some task_id, some context_id⟩
  let commitText ← asPartText commit
  let artifacts : List Artifact :=
    [⟨"review", [⟨"text",
        some ("Severity: " ++ pyFormat sev ++ "\nExplanation: " ++ pyFormat expl)⟩]⟩,
     ⟨"diff", [⟨"text", some diff⟩]⟩,
     ⟨"commit", [⟨"text", some commitText⟩]⟩]
  pure (agent_msg, artifacts)

/-- The `reversed(messages[:-1])` search of the `fix last` branch: the
most recent user message (excluding the current turn) whose extracted
code is non-empty. -/
def findLastUserCodeMsg (messages : List A2AMessage) : Option A2AMessage :=
  (messages.dropLast).reverse.find? fun msg =>
    msg.role = "user" &&
      pyStrip (extract_code (some (fullTextOf msg))).1 ≠ ""

/-- Python `l[-5:]`. -/
def takeLast5 (l : List A2AMessage) : List A2AMessage :=
  l.drop (l.length - 5)

/-- The follow-up scan of branch 5: the first message of the recent
memory that is agent-authored and mentions a past review. -/
def findFollowUpMsg (recent : List A2AMessage) : Option A2AMessage :=
  recent.find? fun msg =>
    msg.role = "agent" &&
      (pyInB "SniffBot Code Review" (fullTextOf msg) ||
       pyInB "SniffBot Code Re-Review" (fullTextOf msg))

/-- Embedding of `SniffBot.process_messages(messages, context_id, task_id)`.

State and effects are explicit: `mem0` is `_CONVERSATION_MEMORY` on
entry and the second component of the result is it on exit; `gen_ctx`
and `gen_task` are the `str(uuid4())` draws used when the respective
identifier is absent; `apiKey` is `self.groq_api_key`; `oracle` gives
the outcome of each Groq attempt.  A `.error` result is an exception
propagating out of `process_messages` (any memory writes already made
persist). -/
def process_messages (apiKey : Option String) (oracle : Nat → ApiOutcome)
    (messages0 : List A2AMessage) (context_id0 task_id0 : Option String)
    (gen_ctx gen_task : String) (mem0 : Memory) :
    Except PyErr TaskResult × Memory :=
  let context_id := pyOrElse context_id0 gen_ctx
  -- === LOAD MEMORY ===
  let messages := if messages0 = [] then memGet mem0 context_id else messages0
  let mem := if messages0 = [] then mem0 else memSet mem0 context_id messages0
  let task_id := pyOrElse task_id0 gen_task
  if messages = [] then
    (.ok (build_error_result "No message provided" task_id context_id messages), mem)
  else
    -- Process the latest message
    let user_message := messages.getLastD ⟨"", [], none, none⟩
    let full_text := fullTextOf user_message
    let lower_text := pyStrip (pyLower full_text)
    -- Extract code from the message once
    let cl := extract_code (some full_text)
    let code := cl.1
    let lang := cl.2
    -- === 1. GREETING ===
    if is_greeting lower_text then
      (.ok (build_greeting_result task_id context_id messages), mem)
    -- === 2. HELP COMMAND ===
    else if is_help_command lower_text then
      (.ok (build_help_result task_id context_id messages), mem)
    else
      -- === 3. CODE REVIEW TRIGGER ===
      let trigger := pyInB "@sniffbot sniff this" lower_text
      if trigger && pyStrip code ≠ "" then
        match analyzeAndRespond apiKey oracle code lang
            "SniffBot Code Review" task_id context_id with
        | .error e => (.error e, mem)
        | .ok (agent_msg, artifacts) =>
          (.ok ⟨task_id, context_id, ⟨"completed", agent_msg⟩, some artifacts,
              messages ++ [agent_msg], "task"⟩,
           memSet mem context_id (messages ++ [agent_msg]))
      -- === 4. FIX LAST CODE TRIGGER ===
      else if pyInB "@sniffbot fix last" lower_text then
        if messages.length < 2 then
          (.ok (build_fallback_result "No previous code to fix! Send some code first."
              task_id context_id messages), mem)
        else
          match findLastUserCodeMsg messages with
          | none =>
            (.ok (build_fallback_result "I couldn\x27t find any previous code to fix."
                task_id context_id messages), mem)
          | some last_user_msg =>
            let user_text := fullTextOf last_user_msg
            let cl2 := extract_code (some user_text)
            if pyStrip cl2.1 = "" then
              (.ok (build_fallback_result "No code found in the last message."
                  task_id context_id messages), mem)
            else
              match analyzeAndRespond apiKey oracle cl2.1 cl2.2
                  "SniffBot Code Re-Review (Fix Last)" task_id context_id with
              | .error e => (.error e, mem)
              | .ok (agent_msg, artifacts) =>
                (.ok ⟨task_id, context_id, ⟨"completed", agent_msg⟩, some artifacts,
                    messages ++ [agent_msg], "task"⟩,
                 memSet mem context_id (messages ++ [agent_msg]))
      -- === 5. FOLLOW-UP CHECK ===
      else if messages.length > 1 ∧
          (findFollowUpMsg (takeLast5 (memGet mem context_id))).isSome then
        (.ok (build_fallback_result "You\x27re welcome! Got more code to sniff?"
            task_id context_id messages), mem)
      -- === 6. FALLBACK FOR NO CODE ===
      else if trigger && pyStrip code = "" then
        (.ok (build_fallback_result
            "**No code detected!**\n\nYou said `sniff this` but no code was found.\n\n**Example:**\n```\n@SniffBot sniff this\n    x = 1 + \"hello\"\n```"
            task_id context_id messages), mem)
      -- === 7. DEFAULT FALLBACK ===
      else
        (.ok (build_fallback_result "Say `@SniffBot sniff this` + code to analyze."
            task_id context_id messages), mem)

/-! ## Firing predicates for the four extraction heuristics (claim C7) -/

/-- Step 1 of `extract_code` yields non-empty code: the fenced-block
pattern matches and the block body survives `rstrip`. -/
def fencedYields (input : Option String) : Bool :=
  match preprocessedText input with
  | none => false
  | some text =>
    match fencedSearch text.data with
    | some (_, body) => pyRstrip ⟨body⟩ ≠ ""
    | none => false

/-- Step 2 of `extract_code` yields non-empty code. -/
def inlineYields (input : Option String) : Bool :=
  match preprocessedText input with
  | none => false
  | some text =>
    match inlineSearch text.data with
    | some body => pyStrip ⟨body⟩ ≠ ""
    | none => false

/-- Step 3 of `extract_code` yields non-empty code. -/
def indentedYields (input : Option String) : Bool :=
  match preprocessedText input with
  | none => false
  | some text => indentedLinesOf text ≠ [] && indentedCode text ≠ ""

/-- Step 4 of `extract_code` yields non-empty code. -/
def heuristicYields (input : Option String) : Bool :=
  match preprocessedText input with
  | none => false
  | some text =>
    heuristicLinesOf text ≠ [] &&
      pyStrip (joinWith "\n" (heuristicLinesOf text)) ≠ ""

/-! ## Lemmas: the diff pipeline on equal inputs -/

theorem runLen_self (l : List String) : runLen l l = l.length := by
  induction l with
  | nil => rfl
  | cons x xs ih => simp [runLen, ih]

theorem candK_le (a b : List String) (ahi bhi i j : Nat) :
    candK a b ahi bhi i j ≤ ahi := by
  unfold candK; omega

theorem innerBest_of_le (a b : List String) (ahi bhi i : Nat) (js : List Nat)
    (best : Nat × Nat × Nat) (h : ahi ≤ best.2.2) :
    innerBest a b ahi bhi i js best = best := by
  induction js with
  | nil => rfl
  | cons j js ih =>
    unfold innerBest
    rw [if_neg]
    · exact ih
    · have := candK_le a b ahi bhi i j
      omega

theorem outerBest_of_le (a b : List String) (ahi bhi : Nat) (js is : List Nat)
    (best : Nat × Nat × Nat) (h : ahi ≤ best.2.2) :
    outerBest a b ahi bhi js is best = best := by
  induction is with
  | nil => rfl
  | cons i is ih =>
    unfold outerBest
    rw [innerBest_of_le a b ahi bhi i js best h]
    exact ih

theorem find_longest_match_self (l : List String) :
    find_longest_match l l 0 l.length 0 l.length = (0, 0, l.length) := by
  cases l with
  | nil => rfl
  | cons x xs =>
    unfold find_longest_match
    have hn : (x :: xs).length - 0 = xs.length + 1 := by simp
    rw [hn]
    show outerBest (x :: xs) (x :: xs) (xs.length + 1) (xs.length + 1)
        (0 :: natRange 1 xs.length) (0 :: natRange 1 xs.length) (0, 0, 0) = _
    unfold outerBest
    unfold innerBest
    have hcand : candK (x :: xs) (x :: xs) (xs.length + 1) (xs.length + 1) 0 0 =
        xs.length + 1 := by
      unfold candK
      rw [runLen_self]
      simp
    rw [hcand]
    rw [if_pos (by simp)]
    rw [innerBest_of_le _ _ _ _ _ _ _ (by simp)]
    rw [outerBest_of_le _ _ _ _ _ _ _ (by simp)]
    simp

theorem find_longest_match_empty_range (l : List String) (p q : Nat) :
    find_longest_match l l p p q q = (p, q, 0) := by
  unfold find_longest_match
  simp [natRange, outerBest]

theorem matchingBlocksAux_degenerate (l : List String) (fuel p q : Nat) :
    matchingBlocksAux l l fuel p p q q = [] := by
  cases fuel with
  | zero => rfl
  | succ f =>
    unfold matchingBlocksAux
    rw [find_longest_match_empty_range]
    simp

theorem matchingBlocksAux_self (l : List String) :
    matchingBlocksAux l l (l.length + l.length + 1) 0 l.length 0 l.length =
      if l.length = 0 then [] else [(0, 0, l.length)] := by
  unfold matchingBlocksAux
  rw [find_longest_match_self]
  by_cases h : l.length = 0
  · simp [h]
  · simp [h, matchingBlocksAux_degenerate]

theorem get_matching_blocks_self (l : List String) :
    get_matching_blocks l l =
      if l.length = 0 then [(0, 0, 0)]
      else [(0, 0, l.length), (l.length, l.length, 0)] := by
  unfold get_matching_blocks
  rw [matchingBlocksAux_self]
  by_cases h : l.length = 0
  · simp [h, mergeAdjacent]
  · rw [if_neg h, if_neg h]
    show mergeAdjacent (0, 0, 0) [(0, 0, l.length)] ++ _ = _
    unfold mergeAdjacent
    rw [if_pos (by simp)]
    unfold mergeAdjacent
    simp [h]

theorem get_opcodes_self (l : List String) :
    get_opcodes l l =
      if l.length = 0 then []
      else [⟨"equal", 0, l.length, 0, l.length⟩] := by
  unfold get_opcodes
  rw [get_matching_blocks_self]
  by_cases h : l.length = 0
  · simp [h, opcodesAux]
  · simp [h, opcodesAux]

theorem groupLoop_single_equal (a1 a2 b1 b2 : Nat) (hle : a2 - a1 ≤ 6) :
    groupLoop [] [⟨"equal", a1, a2, b1, b2⟩] = [] := by
  unfold groupLoop
  rw [if_neg]
  · unfold groupLoop
    simp
  · rintro ⟨-, h2⟩
    have h2' : a2 - a1 > 6 := h2
    omega

theorem get_grouped_opcodes_self (l : List String) :
    get_grouped_opcodes l l = [] := by
  unfold get_grouped_opcodes
  rw [get_opcodes_self]
  by_cases h : l.length = 0
  · simp only [if_pos h, reduceIte, fixFirstOpcode, fixLastOpcode]
    norm_num [List.getLast?]
    exact groupLoop_single_equal 0 1 0 1 (by omega)
  · simp only [if_neg h]
    have hne : ([(⟨"equal", 0, l.length, 0, l.length⟩ : Opcode)] : List Opcode) ≠ [] := by
      simp
    simp only [if_neg hne, fixFirstOpcode, if_pos rfl, fixLastOpcode,
      List.getLast?_singleton, List.dropLast_single, List.nil_append]
    exact groupLoop_single_equal _ _ _ _ (by omega)

theorem unified_diff_self (l : List String) : unified_diff l l = [] := by
  unfold unified_diff
  rw [get_grouped_opcodes_self]

theorem create_diff_self (x : String) :
    create_diff x x = "```diff\n# No changes detected\n```" := by
  unfold create_diff
  simp only [unified_diff_self]
  simp

/-! ## Lemmas: non-emptiness of stripped joins (claim C7) -/

theorem all_space_dropWhile (l : List Char) :
    (∀ c ∈ l.dropWhile pyIsSpaceChar, pyIsSpaceChar c) ↔ ∀ c ∈ l, pyIsSpaceChar c := by
  constructor
  · intro h c hc
    rw [← List.takeWhile_append_dropWhile (p := pyIsSpaceChar) (l := l)] at hc
    rcases List.mem_append.1 hc with h1 | h2
    · exact List.mem_takeWhile_imp h1
    · exact h c h2
  · intro h c hc
    exact h c ((List.dropWhile_sublist _).subset hc)

theorem string_eq_empty_iff (t : String) : t = "" ↔ t.data = [] := by
  obtain ⟨d⟩ := t
  constructor
  · intro h
    exact congrArg String.data h
  · intro h
    show String.mk d = String.mk []
    rw [show d = [] from h]

theorem pyStrip_eq_empty_iff (s : String) :
    pyStrip s = "" ↔ ∀ c ∈ s.data, pyIsSpaceChar c := by
  rw [string_eq_empty_iff]
  show ((s.data.dropWhile pyIsSpaceChar).reverse.dropWhile pyIsSpaceChar).reverse
      = [] ↔ _
  rw [List.reverse_eq_nil_iff, List.dropWhile_eq_nil_iff]
  constructor
  · intro h
    rw [← all_space_dropWhile]
    intro c hc
    exact h c (List.mem_reverse.2 hc)
  · intro h c hc
    exact (all_space_dropWhile s.data).2 h c (List.mem_reverse.1 hc)

theorem mem_data_joinWith_head (sep : String) (l : String) (rest : List String)
    (c : Char) (hc : c ∈ l.data) : c ∈ (joinWith sep (l :: rest)).data := by
  cases rest with
  | nil => simpa [joinWith] using hc
  | cons y t =>
    show c ∈ (l ++ sep ++ joinWith sep (y :: t)).data
    rw [String.data_append, String.data_append]
    exact List.mem_append_left _ (List.mem_append_left _ hc)

theorem heuristic_code_ne_empty (text : String) (h : heuristicLinesOf text ≠ []) :
    pyStrip (joinWith "\n" (heuristicLinesOf text)) ≠ "" := by
  obtain ⟨l, rest, hl⟩ : ∃ l rest, heuristicLinesOf text = l :: rest := by
    cases hx : heuristicLinesOf text with
    | nil => exact absurd hx h
    | cons a b => exact ⟨a, b, rfl⟩
  have hmem : l ∈ heuristicLinesOf text := by
    rw [hl]; exact List.mem_cons_self _ _
  have hprop := List.of_mem_filter hmem
  simp only [Bool.and_eq_true, decide_eq_true_eq] at hprop
  have hstrip : pyStrip l ≠ "" := hprop.1
  rw [Ne, pyStrip_eq_empty_iff] at hstrip
  push_neg at hstrip
  obtain ⟨c, hc, hcs⟩ := hstrip
  rw [hl]
  intro hempty
  rw [pyStrip_eq_empty_iff] at hempty
  exact hcs (hempty c (mem_data_joinWith_head _ _ _ _ hc))

theorem step34Iff (text : String) :
    extractStep34 text = ("", "") ↔
      ((indentedLinesOf text ≠ [] && indentedCode text ≠ "") = false ∧
        (heuristicLinesOf text ≠ [] &&
          pyStrip (joinWith "\n" (heuristicLinesOf text)) ≠ "") = false) := by
  unfold extractStep34
  by_cases hind : indentedLinesOf text = [] <;>
    by_cases hicode : indentedCode text = "" <;>
      by_cases hheu : heuristicLinesOf text = []
  all_goals
    try simp [hind, hicode, hheu]
  all_goals
    (have hcode := heuristic_code_ne_empty text hheu
     simp [hind, hicode, hheu, hcode])

/-! ## Claim theorems -/

/-- Claim C5: `create_diff` is constant on equal inputs: for every pair of
strings `x`, `y`, `create_diff x x = create_diff y y`, and both equal the
canonical "no changes" placeholder block. -/
theorem C5_diff_idempotence (x y : String) :
    create_diff x x = create_diff y y ∧
      create_diff x x = "```diff\n# No changes detected\n```" := by
  rw [create_diff_self, create_diff_self]
  exact ⟨rfl, rfl⟩

/-- Claim C7: `extract_code` is a total function into pairs of strings
(by construction of the embedding it can raise no exception for any
input, `None` included), and it returns `("", "")` exactly when none of
the four heuristics (fenced block, inline code, indented block, raw-line
keyword detection) yields non-empty code. -/
theorem C7_extract_code_total (input : Option String) :
    extract_code input = ("", "") ↔
      fencedYields input = false ∧ inlineYields input = false ∧
        indentedYields input = false ∧ heuristicYields input = false := by
  unfold extract_code fencedYields inlineYields indentedYields heuristicYields
  cases hpre : preprocessedText input with
  | none => simp
  | some text =>
    unfold extractCore
    rcases hf : fencedSearch text.data with _ | ⟨w, body⟩
    · rcases hi : inlineSearch text.data with _ | ibody
      · simp only [hf, hi]
        simpa using step34Iff text
      · by_cases hic : pyStrip ⟨ibody⟩ = ""
        · simp only [hf, hi, hic]
          simpa using step34Iff text
        · simp [hf, hi, hic]
    · by_cases hfc : pyRstrip ⟨body⟩ = ""
      · rcases hi : inlineSearch text.data with _ | ibody
        · simp only [hf, hi, hfc]
          simpa using step34Iff text
        · by_cases hic : pyStrip ⟨ibody⟩ = ""
          · simp only [hf, hi, hfc, hic]
            simpa using step34Iff text
          · simp [hf, hi, hfc, hic]
      · simp [hf, hfc]

/-- Claim C1: the claim says the Review Requester never raises, for every
outcome of the external call *including a body that parses as valid JSON
but is not a conforming object*.  The code disproves this: with a key
configured and HTTP 200 returning the valid JSON object
`{"severity": "Medium"}` (no `explanation` field), `_analyze_with_groq`
returns the parsed dict unvalidated, and `_analyze_with_retry`'s
predicate `analysis["explanation"]` raises `KeyError` to its caller; a
valid JSON array raises `TypeError` the same way.  This contradicts the
code's own stated intent (`"Call Groq API with full error handling"`,
and §4.3/§7 of the specification), so the code, not the claim's spec
sentence, is at fault. -/
theorem C1_retry_raises_on_nonconforming_json :
    analyze_with_groq (some "key") "x = 1" "python"
        (.response 200 "\x7b\"severity\": \"Medium\"\x7d") =
      Json.obj [("severity", Json.str "Medium")] ∧
    analyze_with_retry (some "key") "x = 1" "python"
        (fun _ => .response 200 "\x7b\"severity\": \"Medium\"\x7d") 3 =
      .error (.keyError "explanation") ∧
    analyze_with_retry (some "key") "x = 1" "python"
        (fun _ => .response 200 "[1, 2]") 3 = .error .typeError :=
  ⟨rfl, rfl, rfl⟩

set_option maxRecDepth 40000 in
/-- Claim C4: the "sniff this with AI unconfigured" scenario: the
underlying ReviewResult is the `"Bot not configured"` fallback (severity
`"Medium"`, explanation containing `"not configured"`), and the dispatch
returns a `completed` TaskResult with exactly the three artifacts
`review`/`diff`/`commit`, the diff artifact being the canonical
"no changes" placeholder. -/
theorem C4_unconfigured_scenario :
    analyze_with_retry none "x=1" "python" (fun _ => ApiOutcome.timeout) 3 =
        .ok (fallback_result "Bot not configured" "x=1") ∧
    pyGetItem (fallback_result "Bot not configured" "x=1") "severity" =
        .ok (.str "Medium") ∧
    pyInB "not configured" "Bot not configured" = true ∧
    (let msg : A2AMessage := ⟨"user", [⟨"text",
        some "@sniffbot sniff this\n```python\nx=1\n```"⟩], none, none⟩
     let R := process_messages none (fun _ => ApiOutcome.timeout) [msg]
        (some "ctx") (some "task") "genC" "genT" (fun _ => [])
     (R.1.toOption.map fun r => r.status.state) = some "completed" ∧
     (R.1.toOption.map fun r => (r.artifacts.getD []).map Artifact.name) =
        some ["review", "diff", "commit"] ∧
     (R.1.toOption.map fun r =>
        (r.artifacts.getD []).map fun a => a.parts.map fun p => p.text.getD "") =
        some [["Severity: Medium\nExplanation: Bot not configured"],
              ["```diff\n# No changes detected\n```"],
              ["chore: retry analysis"]]) :=
  ⟨rfl, rfl, by decide, by decide, by decide, by decide⟩

/-- Claim C8 (counterexample): a fenced block without a language tag whose
body is plainly Python: `extract_code` returns language `"unknown"`
directly, it does *not* run the step-5 keyword detection (which would
say `"python"`), refuting the claim. -/
theorem C8_counterexample :
    extract_code (some "```\ndef f(x): return x\n```") =
        ("def f(x): return x", "unknown") ∧
      detect_language "def f(x): return x" = "python" ∧
      ("unknown" : String) ≠ "python" :=
  ⟨rfl, rfl, by decide⟩

/-- Claim C8 (amended): for every input whose preprocessed text's first
fenced-block match has an empty language tag and a body that survives
`rstrip`, `extract_code` returns that body with the fixed language
`"unknown"`; the step-5 keyword detection is not consulted on this
path. -/
theorem C8_amended (input : Option String) (text : String) (body : List Char)
    (hpre : preprocessedText input = some text)
    (hsearch : fencedSearch text.data = some ([], body))
    (hcode : pyRstrip ⟨body⟩ ≠ "") :
    extract_code input = (pyRstrip ⟨body⟩, "unknown") := by
  unfold extract_code
  rw [hpre]
  show extractCore text = _
  unfold extractCore
  rw [hsearch]
  simp [hcode]
  intro h
  exact absurd rfl h

/-- Witness for `C8_amended` at the concrete input `"```\nx=1\n```"`. -/
theorem C8_amended_witness :
    preprocessedText (some "```\nx=1\n```") = some "```\nx=1\n```" ∧
      fencedSearch ("```\nx=1\n```" : String).data = some ([], "x=1".data) ∧
      pyRstrip ⟨"x=1".data⟩ ≠ "" ∧
      extract_code (some "```\nx=1\n```") = (pyRstrip ⟨"x=1".data⟩, "unknown") :=
  ⟨rfl, rfl, by decide, C8_amended (some "```\nx=1\n```") "```\nx=1\n```"
    "x=1".data rfl rfl (by decide)⟩

/-- Claim C6 (counterexample): the claim says the `"No message provided"`
error path returns the original (empty) history *without* appending the
agent message; in the code `_build_error_result` appends the error
message to the history like every other builder, so the returned history
is non-empty. -/
theorem C6_counterexample :
    (process_messages none (fun _ => ApiOutcome.timeout) [] (some "ctx")
        (some "task") "genC" "genT" (fun _ => [])).1 =
      .ok (build_error_result "No message provided" "task" "ctx" []) ∧
    (build_error_result "No message provided" "task" "ctx" []).history ≠ [] :=
  ⟨rfl, by decide⟩

/-- Claim C3 (counterexample): when all three attempts are rate-limited
the returned fallback's explanation is `"Max retries exceeded"` (capital
M), not the claimed `"max retries exceeded"`. -/
theorem C3_counterexample :
    analyze_with_retry (some "key") "x" "python"
        (fun _ => .response 429 "") 3 =
      .ok (fallback_result "Max retries exceeded" "x") ∧
    pyGetItem (fallback_result "Max retries exceeded" "x") "explanation" =
      .ok (.str "Max retries exceeded") ∧
    ("Max retries exceeded" : String) ≠ "max retries exceeded" :=
  ⟨rfl, rfl, by decide⟩

theorem retryCallsLoop_le (apiKey : Option String) (code lang : String)
    (oracle : Nat → ApiOutcome) (rem : Nat) :
    ∀ attempt, retryCallsLoop apiKey code lang oracle attempt rem ≤ rem := by
  induction rem with
  | zero => intro attempt; simp [retryCallsLoop]
  | succ n ih =>
    intro attempt
    unfold retryCallsLoop
    cases h : retryCond (analyze_with_groq apiKey code lang (oracle attempt)) with
    | error e =>
      show (1 : Nat) ≤ n + 1
      omega
    | ok b =>
      cases b
      · show 1 + retryCallsLoop apiKey code lang oracle (attempt + 1) n ≤ n + 1
        have := ih (attempt + 1)
        omega
      · show (1 : Nat) ≤ n + 1
        omega

theorem retryLoop_early (apiKey : Option String) (code lang : String)
    (oracle : Nat → ApiOutcome) :
    ∀ k rem attempt, k < rem →
      (∀ i, i < k →
        retryCond (analyze_with_groq apiKey code lang (oracle (attempt + i))) = .ok false) →
      retryCond (analyze_with_groq apiKey code lang (oracle (attempt + k))) = .ok true →
      retryLoop apiKey code lang oracle attempt rem =
          .ok (analyze_with_groq apiKey code lang (oracle (attempt + k))) ∧
        retryCallsLoop apiKey code lang oracle attempt rem = k + 1 := by
  intro k
  induction k with
  | zero =>
    intro rem attempt hlt hbefore hk
    obtain ⟨r, rfl⟩ : ∃ r, rem = r + 1 := ⟨rem - 1, by omega⟩
    rw [Nat.add_zero] at hk
    unfold retryLoop retryCallsLoop
    rw [hk]
    exact ⟨rfl, rfl⟩
  | succ k ih =>
    intro rem attempt hlt hbefore hk
    obtain ⟨r, rfl⟩ : ∃ r, rem = r + 1 := ⟨rem - 1, by omega⟩
    have h0 : retryCond (analyze_with_groq apiKey code lang (oracle attempt)) = .ok false := by
      have := hbefore 0 (by omega)
      simpa using this
    unfold retryLoop retryCallsLoop
    rw [h0]
    have hbefore2 : ∀ i, i < k →
        retryCond (analyze_with_groq apiKey code lang (oracle (attempt + 1 + i))) =
          .ok false := by
      intro i hi
      have := hbefore (i + 1) (by omega)
      rwa [show attempt + (i + 1) = attempt + 1 + i by omega] at this
    have hk2 : retryCond (analyze_with_groq apiKey code lang (oracle (attempt + 1 + k))) =
        .ok true := by
      rwa [show attempt + (k + 1) = attempt + 1 + k by omega] at hk
    have := ih r (attempt + 1) (by omega) hbefore2 hk2
    refine ⟨?_, ?_⟩
    · rw [show attempt + (k + 1) = attempt + 1 + k by omega]
      show retryLoop apiKey code lang oracle (attempt + 1) r = _
      exact this.1
    · show 1 + retryCallsLoop apiKey code lang oracle (attempt + 1) r = k + 1 + 1
      have h2 := this.2
      omega

theorem retryLoop_exhaust (apiKey : Option String) (code lang : String)
    (oracle : Nat → ApiOutcome) :
    ∀ rem attempt,
      (∀ i, i < rem →
        retryCond (analyze_with_groq apiKey code lang (oracle (attempt + i))) = .ok false) →
      retryLoop apiKey code lang oracle attempt rem =
        .ok (fallback_result "Max retries exceeded" code) := by
  intro rem
  induction rem with
  | zero => intro attempt _; rfl
  | succ n ih =>
    intro attempt hall
    have h0 : retryCond (analyze_with_groq apiKey code lang (oracle attempt)) = .ok false := by
      have := hall 0 (by omega)
      simpa using this
    unfold retryLoop
    rw [h0]
    refine ih (attempt + 1) fun i hi => ?_
    have := hall (i + 1) (by omega)
    rwa [show attempt + (i + 1) = attempt + 1 + i by omega] at this

theorem exceptBind_ok {ε α β : Type} (a : α) (f : α → Except ε β) :
    (Except.ok a >>= f) = f a := rfl

theorem exceptBind_error {ε α β : Type} (e : ε) (f : α → Except ε β) :
    ((Except.error e : Except ε α) >>= f) = .error e := rfl

theorem retryCond_eq_false_iff (analysis : Json) :
    retryCond analysis = .ok false ↔
      pyGetItem analysis "severity" = .ok (.str "Medium") ∧
        ∃ e, pyGetItem analysis "explanation" = .ok (.str e) ∧
          pyInB "rate limit" (pyLower e) = true := by
  cases hsev : pyGetItem analysis "severity" with
  | error err => simp [retryCond, hsev]
  | ok sev =>
    by_cases hm : jsonEqStr sev "Medium" = true
    · have hsevstr : sev = .str "Medium" := by
        cases sev <;> simp [jsonEqStr] at hm <;> simp [hm]
      subst hsevstr
      cases hexpl : pyGetItem analysis "explanation" with
      | error err => simp [retryCond, hsev, hexpl, jsonEqStr]
      | ok expl =>
        cases expl <;> simp [retryCond, hsev, hexpl, pyStrLowerM, jsonEqStr]
    · have hne : sev ≠ .str "Medium" := by
        intro hcontra; subst hcontra; simp [jsonEqStr] at hm
      simp [retryCond, hsev, hm, hne]

/-- Claim C3 (amended): the retry wrapper invokes the underlying call at
most 3 times; when attempt `k` (0-based) is the first whose result fails
the retry predicate, the wrapper returns that attempt's result having
invoked the call exactly `k + 1 ≤ 3` times (fewer than 3 whenever
`k < 2`); the predicate retries exactly the results carrying severity
`"Medium"` and a string explanation containing `"rate limit"`
case-insensitively; and when all 3 attempts are retried the wrapper
returns the fallback whose explanation is `"Max retries exceeded"`. -/
theorem C3_amended (apiKey : Option String) (code lang : String)
    (oracle : Nat → ApiOutcome) :
    retryCalls apiKey code lang oracle ≤ 3 ∧
    (∀ k, k < 3 →
      (∀ i, i < k →
        retryCond (analyze_with_groq apiKey code lang (oracle i)) = .ok false) →
      retryCond (analyze_with_groq apiKey code lang (oracle k)) = .ok true →
      analyze_with_retry apiKey code lang oracle 3 =
          .ok (analyze_with_groq apiKey code lang (oracle k)) ∧
        retryCalls apiKey code lang oracle = k + 1) ∧
    ((∀ i, i < 3 →
        retryCond (analyze_with_groq apiKey code lang (oracle i)) = .ok false) →
      analyze_with_retry apiKey code lang oracle 3 =
        .ok (fallback_result "Max retries exceeded" code)) ∧
    (∀ analysis : Json, retryCond analysis = .ok false ↔
      pyGetItem analysis "severity" = .ok (.str "Medium") ∧
        ∃ e, pyGetItem analysis "explanation" = .ok (.str e) ∧
          pyInB "rate limit" (pyLower e) = true) := by
  refine ⟨retryCallsLoop_le apiKey code lang oracle 3 0, ?_, ?_, retryCond_eq_false_iff⟩
  · intro k hk hbefore hkcond
    have := retryLoop_early apiKey code lang oracle k 3 0 hk
      (by intro i hi; simpa using hbefore i hi) (by simpa using hkcond)
    constructor
    · show retryLoop apiKey code lang oracle 0 3 = _
      have h1 := this.1
      rwa [Nat.zero_add] at h1
    · exact this.2
  · intro hall
    exact retryLoop_exhaust apiKey code lang oracle 3 0
      (by intro i hi; simpa using hall i hi)

/-- Witness for `C3_amended`: with attempt 0 rate-limited (HTTP 429) and
attempt 1 an HTTP 500 fallback, the wrapper returns attempt 1's result
after exactly 2 calls. -/
theorem C3_amended_witness :
    analyze_with_retry (some "key") "x" "python"
        (fun n => if n = 0 then .response 429 "" else .response 500 "") 3 =
      .ok (analyze_with_groq (some "key") "x" "python" (.response 500 "")) ∧
    retryCalls (some "key") "x" "python"
        (fun n => if n = 0 then .response 429 "" else .response 500 "") = 2 := by
  have h := (C3_amended (some "key") "x" "python"
      (fun n => if n = 0 then .response 429 "" else .response 500 "")).2.1 1
    (by omega)
    (by
      intro i hi
      interval_cases i
      rfl)
    rfl
  exact ⟨h.1, h.2⟩

theorem memGet_memSet (m : Memory) (k : String) (v : List A2AMessage) :
    memGet (memSet m k v) k = v := by
  simp [memGet, memSet]

/-- Claim C6 (amended): *every* terminal state of the dispatcher, the
`"No message provided"` error path included, returns a TaskResult whose
history is the effective input history (the stored history when the
incoming batch is empty, otherwise the batch) plus the newly constructed
agent message. -/
theorem C6_amended (apiKey : Option String) (oracle : Nat → ApiOutcome)
    (messages0 : List A2AMessage) (ctx0 tid0 : Option String)
    (gctx gtask : String) (mem0 : Memory) (r : TaskResult)
    (hok : (process_messages apiKey oracle messages0 ctx0 tid0 gctx gtask mem0).1 =
      .ok r) :
    r.history =
      (if messages0 = [] then memGet mem0 (pyOrElse ctx0 gctx) else messages0) ++
        [r.status.message] := by
  simp only [process_messages] at hok
  repeat' split at hok
  all_goals try (simp only [Except.ok.injEq] at hok; subst hok; simp [*, build_error_result, build_greeting_result, build_help_result, build_fallback_result])
  all_goals simp at hok

/-- Witness for `C6_amended`: the empty-batch error path appends the
error message to the (empty) history. -/
theorem C6_amended_witness :
    (build_error_result "No message provided" "task" "ctx" []).history =
      (if ([] : List A2AMessage) = [] then
        memGet (fun _ => []) (pyOrElse (some "ctx") "genC") else []) ++
        [(build_error_result "No message provided" "task" "ctx" []).status.message] :=
  C6_amended none (fun _ => ApiOutcome.timeout) [] (some "ctx") (some "task")
    "genC" "genT" (fun _ => [])
    (build_error_result "No message provided" "task" "ctx" []) rfl

/-- Claim C2 (counterexample): a greeting dispatch produces a response
(terminal state `input-required`), yet the stored sequence for the
context is left equal to the incoming batch: the response message is
*not* appended to memory, refuting the claim's "whenever the dispatch
produces a response" clause. -/
theorem C2_counterexample :
    (let hello : A2AMessage := ⟨"user", [⟨"text", some "hello @sniffbot"⟩], none, none⟩
     let R := process_messages none (fun _ => ApiOutcome.timeout) [hello] (some "c")
       (some "t") "g1" "g2" (fun _ => [])
     R.1 = .ok (build_greeting_result "t" "c" [hello]) ∧
       R.2 "c" = [hello] ∧
       R.2 "c" ≠
         [hello] ++ [(build_greeting_result "t" "c" [hello]).status.message]) := by
  refine ⟨rfl, rfl, fun h => ?_⟩
  exact absurd (congrArg List.length h) (by decide)

/-- Claim C2 (amended): on every non-empty incoming batch the stored
sequence for the context-id is replaced by the batch, and on return it
equals the batch plus the response message exactly when the dispatch
completed a review (terminal state `completed`); for every other
terminal state, and when an exception escapes, it equals the batch. -/
theorem C2_amended (apiKey : Option String) (oracle : Nat → ApiOutcome)
    (messages0 : List A2AMessage) (ctx0 tid0 : Option String)
    (gctx gtask : String) (mem0 : Memory)
    (hne : messages0 ≠ []) :
    (process_messages apiKey oracle messages0 ctx0 tid0 gctx gtask mem0).2
        (pyOrElse ctx0 gctx) =
      match (process_messages apiKey oracle messages0 ctx0 tid0 gctx gtask mem0).1 with
      | .ok r =>
        if r.status.state = "completed" then messages0 ++ [r.status.message]
        else messages0
      | .error _ => messages0 := by
  simp only [process_messages, if_neg hne]
  repeat' split
  all_goals try simp only [Except.ok.injEq] at *
  all_goals try subst_vars
  all_goals
    simp_all [memSet, build_greeting_result, build_help_result,
      build_fallback_result, build_error_result]

/-- Witness for `C2_amended`: a greeting dispatch (state
`input-required`) leaves the stored sequence equal to the batch. -/
theorem C2_amended_witness :
    (process_messages none (fun _ => ApiOutcome.timeout)
        [⟨"user", [⟨"text", some "hello @sniffbot"⟩], none, none⟩] (some "c") (some "t")
        "g1" "g2" (fun _ => [])).2 (pyOrElse (some "c") "g1") =
      match (process_messages none (fun _ => ApiOutcome.timeout)
          [⟨"user", [⟨"text", some "hello @sniffbot"⟩], none, none⟩] (some "c")
          (some "t") "g1" "g2" (fun _ => [])).1 with
      | .ok r =>
        if r.status.state = "completed" then
          [⟨"user", [⟨"text", some "hello @sniffbot"⟩], none, none⟩] ++
            [r.status.message]
        else [⟨"user", [⟨"text", some "hello @sniffbot"⟩], none, none⟩]
      | .error _ => [⟨"user", [⟨"text", some "hello @sniffbot"⟩], none, none⟩] :=
  C2_amended none (fun _ => ApiOutcome.timeout)
    [⟨"user", [⟨"text", some "hello @sniffbot"⟩], none, none⟩] (some "c") (some "t")
    "g1" "g2" (fun _ => []) (by decide)

/-- Claim C9: greeting detection is substring-based: whenever the active
(last) message's lower-cased stripped text contains `"@sniffbot"` and any
of the greeting words as a *substring* (also inside a longer word, e.g.
`"hi"` inside `"this"`), and contains neither `"sniff this"` nor
`"fix last"`, the dispatcher returns the greeting result — before the
help, review-trigger, and fix-last rules are considered. -/
theorem C9_greeting_substring_based (apiKey : Option String)
    (oracle : Nat → ApiOutcome) (messages0 : List A2AMessage)
    (ctx0 tid0 : Option String) (gctx gtask : String) (mem0 : Memory) (lt : String)
    (hne : messages0 ≠ [])
    (hlt : lt = pyStrip (pyLower (fullTextOf
      (messages0.getLastD ⟨"", [], none, none⟩))))
    (hg : (["hi", "hello", "hey", "yo", "sup", "morning", "evening"].any fun g =>
      pyInB g lt) = true)
    (hmention : pyInB "@sniffbot" lt = true)
    (hs : pyInB "sniff this" lt = false)
    (hfix : pyInB "fix last" lt = false) :
    (process_messages apiKey oracle messages0 ctx0 tid0 gctx gtask mem0).1 =
      .ok (build_greeting_result (pyOrElse tid0 gtask) (pyOrElse ctx0 gctx)
        messages0) := by
  have hgreet : is_greeting (pyStrip (pyLower (fullTextOf
      (messages0.getLastD ⟨"", [], none, none⟩)))) = true := by
    rw [← hlt]
    simp [is_greeting, hg, hmention, hs, hfix]
  simp only [process_messages, if_neg hne, hgreet]
  simp

/-- Witness for `C9_greeting_substring_based`: `"@sniffbot what is this"`
is classified as a greeting — the only greeting word present is `"hi"`
inside `"this"`, and the help word `"what"` never gets a chance. -/
theorem C9_witness :
    (process_messages none (fun _ => ApiOutcome.timeout)
        [⟨"user", [⟨"text", some "@sniffbot what is this"⟩], none, none⟩]
        (some "c") (some "t") "g1" "g2" (fun _ => [])).1 =
      .ok (build_greeting_result (pyOrElse (some "t") "g2") (pyOrElse (some "c") "g1")
        [⟨"user", [⟨"text", some "@sniffbot what is this"⟩], none, none⟩]) :=
  C9_greeting_substring_based none (fun _ => ApiOutcome.timeout)
    [⟨"user", [⟨"text", some "@sniffbot what is this"⟩], none, none⟩]
    (some "c") (some "t") "g1" "g2" (fun _ => [])
    (pyStrip (pyLower (fullTextOf
      (([⟨"user", [⟨"text", some "@sniffbot what is this"⟩], none, none⟩] :
        List A2AMessage).getLastD ⟨"", [], none, none⟩))))
    (by decide) rfl (by decide) (by decide) (by decide) (by decide)

/-- Claim C10: because a non-empty batch overwrites the stored sequence
before any rule runs, the follow-up suppression decision depends only on
the incoming batch: given that no earlier rule (greeting, help, review
trigger with code, fix-last) matches, the dispatcher returns the
"You're welcome" result exactly when the batch has more than one message
and one of its last 5 messages is an agent message mentioning
`"SniffBot Code Review"` or `"SniffBot Code Re-Review"`. -/
theorem C10_followup_depends_only_on_batch (apiKey : Option String)
    (oracle : Nat → ApiOutcome) (messages0 : List A2AMessage)
    (ctx0 tid0 : Option String) (gctx gtask : String) (mem0 : Memory)
    (lt : String) (cl : String × String)
    (hne : messages0 ≠ [])
    (hlt : lt = pyStrip (pyLower (fullTextOf
      (messages0.getLastD ⟨"", [], none, none⟩))))
    (hcl : cl = extract_code (some (fullTextOf
      (messages0.getLastD ⟨"", [], none, none⟩))))
    (hg : is_greeting lt = false)
    (hh : is_help_command lt = false)
    (ht : (pyInB "@sniffbot sniff this" lt && pyStrip cl.1 ≠ "") = false)
    (hfix : pyInB "@sniffbot fix last" lt = false) :
    ((process_messages apiKey oracle messages0 ctx0 tid0 gctx gtask mem0).1 =
        .ok (build_fallback_result "You\x27re welcome! Got more code to sniff?"
          (pyOrElse tid0 gtask) (pyOrElse ctx0 gctx) messages0)) ↔
      (messages0.length > 1 ∧ ∃ m ∈ takeLast5 messages0, m.role = "agent" ∧
        (pyInB "SniffBot Code Review" (fullTextOf m) = true ∨
          pyInB "SniffBot Code Re-Review" (fullTextOf m) = true)) := by
  subst hlt
  subst hcl
  have hiff : ((findFollowUpMsg (takeLast5 messages0)).isSome = true) ↔
      ∃ m ∈ takeLast5 messages0, m.role = "agent" ∧
        (pyInB "SniffBot Code Review" (fullTextOf m) = true ∨
          pyInB "SniffBot Code Re-Review" (fullTextOf m) = true) := by
    simp only [findFollowUpMsg, List.find?_isSome, Bool.and_eq_true, Bool.or_eq_true,
      decide_eq_true_eq]
  simp only [process_messages, if_neg hne, hg, hh, hfix, ht, memGet_memSet]
  simp only [Bool.false_eq_true, if_false]
  by_cases hC : messages0.length > 1 ∧ (findFollowUpMsg (takeLast5 messages0)).isSome
  · rw [if_pos hC]
    exact iff_of_true rfl ⟨hC.1, hiff.1 hC.2⟩
  · rw [if_neg hC]
    have hrhs : ¬(messages0.length > 1 ∧ ∃ m ∈ takeLast5 messages0,
        m.role = "agent" ∧ (pyInB "SniffBot Code Review" (fullTextOf m) = true ∨
          pyInB "SniffBot Code Re-Review" (fullTextOf m) = true)) := by
      intro hcontra
      exact hC ⟨hcontra.1, hiff.2 hcontra.2⟩
    split
    · refine iff_of_false (fun hcontra => ?_) hrhs
      simp [build_fallback_result] at hcontra
    · refine iff_of_false (fun hcontra => ?_) hrhs
      simp [build_fallback_result] at hcontra

/-- Witness for `C10_followup_depends_only_on_batch`: a two-message batch
whose first message is an agent review message triggers the follow-up
response. -/
theorem C10_witness :
    (process_messages none (fun _ => ApiOutcome.timeout)
        [⟨"agent", [⟨"text", some "**SniffBot Code Review** earlier"⟩], none, none⟩,
         ⟨"user", [⟨"text", some "thanks a lot"⟩], none, none⟩]
        (some "c") (some "t") "g1" "g2" (fun _ => [])).1 =
      .ok (build_fallback_result "You\x27re welcome! Got more code to sniff?"
        (pyOrElse (some "t") "g2") (pyOrElse (some "c") "g1")
        [⟨"agent", [⟨"text", some "**SniffBot Code Review** earlier"⟩], none, none⟩,
         ⟨"user", [⟨"text", some "thanks a lot"⟩], none, none⟩]) :=
  (C10_followup_depends_only_on_batch none (fun _ => ApiOutcome.timeout)
    [⟨"agent", [⟨"text", some "**SniffBot Code Review** earlier"⟩], none, none⟩,
     ⟨"user", [⟨"text", some "thanks a lot"⟩], none, none⟩]
    (some "c") (some "t") "g1" "g2" (fun _ => [])
    (pyStrip (pyLower (fullTextOf
      (([⟨"agent", [⟨"text", some "**SniffBot Code Review** earlier"⟩], none, none⟩,
         ⟨"user", [⟨"text", some "thanks a lot"⟩], none, none⟩] :
        List A2AMessage).getLastD ⟨"", [], none, none⟩))))
    (extract_code (some (fullTextOf
      (([⟨"agent", [⟨"text", some "**SniffBot Code Review** earlier"⟩], none, none⟩,
         ⟨"user", [⟨"text", some "thanks a lot"⟩], none, none⟩] :
        List A2AMessage).getLastD ⟨"", [], none, none⟩))))
    (by decide) rfl rfl (by decide) (by decide) (by decide) (by decide)).2
    (by refine ⟨by decide, ⟨"agent", [⟨"text",
      some "**SniffBot Code Review** earlier"⟩], none, none⟩, by decide, by decide,
      Or.inl (by decide)⟩)

end Sniffbot
